import Mathlib

/-!
Shallow embedding of the sprite-sheet animation core (`Sprite` and the
`SpriteAnimation` driver) from `src/src/index.ts`, together with theorems
settling the specification's claims about it.

Numbers held in the JavaScript objects are modelled as integers (`ℤ`) for
the counters and configuration fields, and the pixel arithmetic performed
by `render()` (which divides the sheet width by the number of frames) is
modelled in `ℚ`.
-/

/-- Embedding of the `SpriteOptions` interface: the configuration passed to
the `Sprite` constructor (the sheet image handle itself is external and is
not part of the state we reason about). -/
structure SpriteOptions where
  width : ℤ
  renderWidth : ℤ
  height : ℤ
  renderHeight : ℤ
  ticksPerFrame : ℤ
  numberOfFrames : ℤ
  deriving Repr, DecidableEq

/-- Embedding of the mutable fields of the `Sprite` class: configuration
fields stored by the constructor plus the animation counters. -/
structure SpriteState where
  width : ℤ
  renderWidth : ℤ
  height : ℤ
  renderHeight : ℤ
  totalTicks : ℤ
  totalFrames : ℤ
  totalLoops : ℤ
  frameIndex : ℤ
  tickCount : ℤ
  ticksPerFrame : ℤ
  numberOfFrames : ℤ
  deriving Repr, DecidableEq

/-- Embedding of the `Sprite` constructor: it stores the options verbatim;
the field initializers leave every counter at `0` and `frameIndex` at `0`.
The constructor performs no validation and cannot fail. -/
def mkSprite (o : SpriteOptions) : SpriteState :=
  { width := o.width
    renderWidth := o.renderWidth
    height := o.height
    renderHeight := o.renderHeight
    totalTicks := 0
    totalFrames := 0
    totalLoops := 0
    frameIndex := 0
    tickCount := 0
    ticksPerFrame := o.ticksPerFrame
    numberOfFrames := o.numberOfFrames }

/-- One primitive operation performed on the drawing surface
(`CanvasRenderingContext2D`): either `clearRect(x, y, w, h)` or
`drawImage(img, sx, sy, sw, sh, dx, dy, dw, dh)` (the image argument is the
sprite sheet and is left implicit). -/
inductive CanvasOp where
  | clearRect (x y w h : ℚ)
  | drawImage (sx sy sw sh dx dy dw dh : ℚ)
  deriving Repr, DecidableEq

namespace Sprite

/-- Embedding of `Sprite.render()`: it clears the destination region
`(0, 0, renderWidth, renderHeight)` and then blits from the source rectangle
`(frameIndex * (width / numberOfFrames), 0, width / numberOfFrames, height)`
to the destination rectangle `(0, 0, renderWidth, renderHeight)`.
The method assigns to no field, so the resulting state is the input state;
the list collects the drawing-surface calls in order.  The division
`width / numberOfFrames` is performed unconditionally, exactly as in the
source (there is no guard on `numberOfFrames`), and no error path exists. -/
def render (s : SpriteState) : SpriteState × List CanvasOp :=
  (s,
   [CanvasOp.clearRect 0 0 (s.renderWidth : ℚ) (s.renderHeight : ℚ),
    CanvasOp.drawImage
      ((s.frameIndex : ℚ) * ((s.width : ℚ) / (s.numberOfFrames : ℚ)))
      0
      ((s.width : ℚ) / (s.numberOfFrames : ℚ))
      (s.height : ℚ)
      0
      0
      (s.renderWidth : ℚ)
      (s.renderHeight : ℚ)])

/-- Embedding of `Sprite.update()`: increment `tickCount` and `totalTicks`;
if the incremented `tickCount` exceeds `ticksPerFrame`, reset `tickCount`,
increment `totalFrames`, and either advance `frameIndex` or wrap it to `0`
while incrementing `totalLoops`. -/
def update (s : SpriteState) : SpriteState :=
  let s1 := { s with tickCount := s.tickCount + 1, totalTicks := s.totalTicks + 1 }
  if s1.tickCount > s1.ticksPerFrame then
    let s2 := { s1 with tickCount := 0, totalFrames := s1.totalFrames + 1 }
    if s2.frameIndex < s2.numberOfFrames - 1 then
      { s2 with frameIndex := s2.frameIndex + 1 }
    else
      { s2 with totalLoops := s2.totalLoops + 1, frameIndex := 0 }
  else
    s1

/-- The state after a sequence of `k` consecutive `update()` calls. -/
def updateN (k : ℕ) (s : SpriteState) : SpriteState :=
  match k with
  | 0 => s
  | k + 1 => update (updateN k s)

end Sprite

set_option maxRecDepth 4000

/-- The concrete configuration of the specification's worked scenario:
`ticksPerFrame = 4`, `numberOfFrames = 8`, render size `147 × 325`, sheet
size `1472 × 325` (so each of the 8 frames is `184` pixels wide). -/
def demoOptions : SpriteOptions :=
  { width := 1472, renderWidth := 147, height := 325, renderHeight := 325,
    ticksPerFrame := 4, numberOfFrames := 8 }

/-- A configuration with `ticksPerFrame = 0`: every `update()` call should
transition frames. -/
def fastOptions : SpriteOptions :=
  { width := 300, renderWidth := 100, height := 100, renderHeight := 100,
    ticksPerFrame := 0, numberOfFrames := 3 }

/-- An invalid configuration in the sense of the error-handling contract:
`numberOfFrames = 0` and `ticksPerFrame = -1`. -/
def invalidOptions : SpriteOptions :=
  { width := 1472, renderWidth := 147, height := 325, renderHeight := 325,
    ticksPerFrame := -1, numberOfFrames := 0 }

/-- Frame width in the specification's vocabulary: the sheet width divided
by the number of frames. -/
def Sprite.frameWidth (s : SpriteState) : ℚ :=
  (s.width : ℚ) / (s.numberOfFrames : ℚ)

/-- Modelled from the spec: the fail-fast construction demanded by the
error-handling contract, which rejects `numberOfFrames ≤ 0` or
`ticksPerFrame < 0` at construction time instead of producing a sprite.
The source constructor has no such check; this definition exists to state
the contract and compare it with the source constructor. -/
def mkSpriteChecked (o : SpriteOptions) : Except String SpriteState :=
  if o.numberOfFrames ≤ 0 ∨ o.ticksPerFrame < 0 then
    Except.error "invalid sprite configuration"
  else
    Except.ok (mkSprite o)

/-- Modelled from the spec: a `render()` whose division by `numberOfFrames`
is explicitly guarded against zero, yielding an explicit error instead of
dividing.  The source `render()` has no such guard; this definition exists
to state the safety contract and compare it with the source `render()`. -/
def renderGuarded (s : SpriteState) : Except String (SpriteState × List CanvasOp) :=
  if s.numberOfFrames = 0 then
    Except.error "division by zero: numberOfFrames = 0"
  else
    Except.ok (Sprite.render s)

/-- Modelled from the spec: the Animator's play/pause state.  The source
`SpriteAnimation` class under `src/` has no transport controls at all — its
`gameLoop` calls `Sprite.update()` and `Sprite.render()` unconditionally —
so the `playing` flag and the flag-gated tick mandated by spec sections 4.2
and 5 are modelled here from the spec's words. -/
structure AnimatorState where
  sprite : SpriteState
  playing : Bool
  deriving Repr, DecidableEq

/-- Modelled from the spec: `pause()` sets `playing := false`. -/
def Animator.pause (a : AnimatorState) : AnimatorState :=
  { a with playing := false }

/-- Modelled from the spec: `play()` sets `playing := true`. -/
def Animator.play (a : AnimatorState) : AnimatorState :=
  { a with playing := true }

/-- Modelled from the spec: one firing of the continuous tick callback.
The callback first re-requests itself (the `Bool` component is `true` when
it did so, i.e. the loop keeps running), and then, only when in the
playing state, calls `Sprite.update()` followed by `Sprite.render()`; the
`List CanvasOp` component records the drawing-surface calls performed. -/
def Animator.tick (a : AnimatorState) : AnimatorState × Bool × List CanvasOp :=
  if a.playing then
    let s1 := Sprite.update a.sprite
    let r := Sprite.render s1
    ({ a with sprite := r.1 }, true, r.2)
  else
    (a, true, [])

/-- The Animator state after `k` consecutive tick firings. -/
def Animator.tickN (k : ℕ) (a : AnimatorState) : AnimatorState :=
  match k with
  | 0 => a
  | k + 1 => (Animator.tick (Animator.tickN k a)).1

/-- Case analysis on one `Sprite.update()` call: either the incremented
`tickCount` exceeds `ticksPerFrame` and the frame advances (with wrap to `0`
and a loop increment when the last frame is reached), or only the two tick
counters are incremented. -/
theorem Sprite.update_cases (s : SpriteState) :
    (s.tickCount + 1 > s.ticksPerFrame ∧ s.frameIndex < s.numberOfFrames - 1 ∧
       Sprite.update s =
         { s with
           tickCount := 0, totalTicks := s.totalTicks + 1,
           totalFrames := s.totalFrames + 1, frameIndex := s.frameIndex + 1 }) ∨
    (s.tickCount + 1 > s.ticksPerFrame ∧ ¬ s.frameIndex < s.numberOfFrames - 1 ∧
       Sprite.update s =
         { s with
           tickCount := 0, totalTicks := s.totalTicks + 1,
           totalFrames := s.totalFrames + 1, totalLoops := s.totalLoops + 1,
           frameIndex := 0 }) ∨
    (¬ s.tickCount + 1 > s.ticksPerFrame ∧
       Sprite.update s =
         { s with
           tickCount := s.tickCount + 1, totalTicks := s.totalTicks + 1 }) := by
  by_cases h1 : s.tickCount + 1 > s.ticksPerFrame
  · by_cases h2 : s.frameIndex < s.numberOfFrames - 1
    · exact Or.inl ⟨h1, h2, by simp only [Sprite.update]; rw [if_pos h1, if_pos h2]⟩
    · exact Or.inr (Or.inl ⟨h1, h2, by simp only [Sprite.update]; rw [if_pos h1, if_neg h2]⟩)
  · exact Or.inr (Or.inr ⟨h1, by simp only [Sprite.update]; rw [if_neg h1]⟩)

/-- An `update()` call never changes the stored configuration fields. -/
theorem Sprite.update_config (s : SpriteState) :
    (Sprite.update s).numberOfFrames = s.numberOfFrames ∧
    (Sprite.update s).ticksPerFrame = s.ticksPerFrame := by
  rcases Sprite.update_cases s with ⟨_, _, h⟩ | ⟨_, _, h⟩ | ⟨_, h⟩ <;> rw [h] <;> exact ⟨rfl, rfl⟩

/-- The animation-state invariant used throughout: the frame index stays in
range and the frame counter decomposes into full loops plus the current
index. -/
def SpriteInv (s : SpriteState) : Prop :=
  0 ≤ s.frameIndex ∧ s.frameIndex ≤ s.numberOfFrames - 1 ∧
    s.totalFrames = s.numberOfFrames * s.totalLoops + s.frameIndex

/-- The invariant is preserved by `Sprite.update()` whenever the sprite has
at least one frame. -/
theorem SpriteInv_update (s : SpriteState) (hn : 1 ≤ s.numberOfFrames)
    (h : SpriteInv s) : SpriteInv (Sprite.update s) := by
  obtain ⟨h0, h1, h2⟩ := h
  rcases Sprite.update_cases s with ⟨_, hf, hu⟩ | ⟨_, hf, hu⟩ | ⟨_, hu⟩ <;>
    unfold SpriteInv <;> rw [hu] <;> dsimp only
  · refine ⟨by omega, by omega, ?_⟩
    rw [h2]; ring
  · have hi : s.frameIndex = s.numberOfFrames - 1 := by omega
    refine ⟨le_refl 0, by omega, ?_⟩
    rw [h2, hi]; ring
  · exact ⟨h0, h1, h2⟩

/-- The invariant holds for a freshly constructed sprite with at least one
frame, and hence after any number of `update()` calls; the configuration is
also unchanged. -/
theorem SpriteInv_updateN (o : SpriteOptions) (hn : 1 ≤ o.numberOfFrames) (k : ℕ) :
    SpriteInv (Sprite.updateN k (mkSprite o)) ∧
    (Sprite.updateN k (mkSprite o)).numberOfFrames = o.numberOfFrames ∧
    (Sprite.updateN k (mkSprite o)).ticksPerFrame = o.ticksPerFrame := by
  induction k with
  | zero =>
    refine ⟨⟨le_refl 0, ?_, ?_⟩, rfl, rfl⟩
    · show (0 : ℤ) ≤ o.numberOfFrames - 1
      omega
    · show (0 : ℤ) = o.numberOfFrames * 0 + 0
      ring
  | succ k ih =>
    obtain ⟨hinv, hcfgN, hcfgT⟩ := ih
    refine ⟨SpriteInv_update _ (by rw [hcfgN]; exact hn) hinv, ?_, ?_⟩
    · rw [Sprite.updateN, (Sprite.update_config _).1, hcfgN]
    · rw [Sprite.updateN, (Sprite.update_config _).2, hcfgT]

/-- C1: for every configuration with `numberOfFrames ≥ 1` and
`ticksPerFrame ≥ 0`, starting from a freshly constructed sprite
(`frameIndex = 0`), after any sequence of `update()` calls the frame index
stays in the range `[0, numberOfFrames - 1]`. -/
theorem frameIndex_in_range (o : SpriteOptions) (k : ℕ)
    (hn : 1 ≤ o.numberOfFrames) (ht : 0 ≤ o.ticksPerFrame) :
    0 ≤ (Sprite.updateN k (mkSprite o)).frameIndex ∧
      (Sprite.updateN k (mkSprite o)).frameIndex ≤ o.numberOfFrames - 1 := by
  obtain ⟨⟨h0, h1, _⟩, hcfgN, _⟩ := SpriteInv_updateN o hn k
  exact ⟨h0, by rw [hcfgN] at h1; exact h1⟩

/-- Witness for C1 at the spec's concrete configuration after 7 updates. -/
theorem frameIndex_in_range_witness :
    0 ≤ (Sprite.updateN 7 (mkSprite demoOptions)).frameIndex ∧
      (Sprite.updateN 7 (mkSprite demoOptions)).frameIndex ≤ demoOptions.numberOfFrames - 1 :=
  frameIndex_in_range demoOptions 7 (by decide) (by decide)

/-- When the incremented `tickCount` does not exceed `ticksPerFrame`, an
`update()` call only increments the two tick counters. -/
theorem Sprite.update_of_no_transition (s : SpriteState)
    (h : ¬ s.tickCount + 1 > s.ticksPerFrame) :
    Sprite.update s =
      { s with tickCount := s.tickCount + 1, totalTicks := s.totalTicks + 1 } := by
  rcases Sprite.update_cases s with ⟨hc, _, _⟩ | ⟨hc, _, _⟩ | ⟨_, hu⟩
  · exact absurd hc h
  · exact absurd hc h
  · exact hu

/-- C5: in every `update()` call (on a state whose `tickCount` is
nonnegative, as it always is on reachable states), `totalTicks` increases by
exactly 1, `tickCount` ends at 0 exactly when the call performed a frame
transition (`totalFrames` incremented), and otherwise `tickCount` increases
by exactly 1. -/
theorem update_tick_counters (s : SpriteState) (hc : 0 ≤ s.tickCount) :
    (Sprite.update s).totalTicks = s.totalTicks + 1 ∧
    ((Sprite.update s).tickCount = 0 ↔ (Sprite.update s).totalFrames = s.totalFrames + 1) ∧
    ((Sprite.update s).totalFrames = s.totalFrames →
      (Sprite.update s).tickCount = s.tickCount + 1) := by
  rcases Sprite.update_cases s with ⟨_, _, hu⟩ | ⟨_, _, hu⟩ | ⟨_, hu⟩ <;>
    rw [hu] <;> dsimp only
  · exact ⟨rfl, ⟨fun _ => rfl, fun _ => rfl⟩, fun h => by omega⟩
  · exact ⟨rfl, ⟨fun _ => rfl, fun _ => rfl⟩, fun h => by omega⟩
  · exact ⟨rfl, ⟨fun h => by omega, fun h => by omega⟩, fun _ => rfl⟩

/-- Witness for C5 at the state reached after 4 updates of the concrete
scenario (the very next update performs the frame transition). -/
theorem update_tick_counters_witness :
    (Sprite.update (Sprite.updateN 4 (mkSprite demoOptions))).totalTicks =
      (Sprite.updateN 4 (mkSprite demoOptions)).totalTicks + 1 ∧
    ((Sprite.update (Sprite.updateN 4 (mkSprite demoOptions))).tickCount = 0 ↔
      (Sprite.update (Sprite.updateN 4 (mkSprite demoOptions))).totalFrames =
        (Sprite.updateN 4 (mkSprite demoOptions)).totalFrames + 1) ∧
    ((Sprite.update (Sprite.updateN 4 (mkSprite demoOptions))).totalFrames =
        (Sprite.updateN 4 (mkSprite demoOptions)).totalFrames →
      (Sprite.update (Sprite.updateN 4 (mkSprite demoOptions))).tickCount =
        (Sprite.updateN 4 (mkSprite demoOptions)).tickCount + 1) :=
  update_tick_counters (Sprite.updateN 4 (mkSprite demoOptions)) (by decide)

/-- During the first `ticksPerFrame` updates after construction no frame
transition occurs: the state is the fresh state with both tick counters at
`j`. -/
theorem updateN_tick_phase (o : SpriteOptions) (t j : ℕ)
    (hT : o.ticksPerFrame = (t : ℤ)) (hj : j ≤ t) :
    Sprite.updateN j (mkSprite o) =
      { mkSprite o with tickCount := (j : ℤ), totalTicks := (j : ℤ) } := by
  induction j with
  | zero => rfl
  | succ j ih =>
    have hj' : j ≤ t := Nat.le_of_succ_le hj
    rw [Sprite.updateN, ih hj', Sprite.update_of_no_transition]
    · have hcast : ((j : ℤ) + 1) = ((j + 1 : ℕ) : ℤ) := by push_cast; ring
      show ({ mkSprite o with
              tickCount := (j : ℤ) + 1, totalTicks := (j : ℤ) + 1 } : SpriteState) = _
      rw [hcast]
    · show ¬ (j : ℤ) + 1 > o.ticksPerFrame
      omega

/-- With `ticksPerFrame = 0`, every `update()` call performs a frame
transition: after `k` calls, `tickCount` is `0` and `totalFrames` is `k`. -/
theorem updateN_every_tick (o : SpriteOptions) (hT : o.ticksPerFrame = 0) (k : ℕ) :
    (Sprite.updateN k (mkSprite o)).tickCount = 0 ∧
    (Sprite.updateN k (mkSprite o)).totalFrames = (k : ℤ) := by
  have hcfg : ∀ m : ℕ, (Sprite.updateN m (mkSprite o)).ticksPerFrame = 0 := by
    intro m
    induction m with
    | zero => exact hT
    | succ m ih => rw [Sprite.updateN, (Sprite.update_config _).2]; exact ih
  induction k with
  | zero => exact ⟨rfl, rfl⟩
  | succ k ih =>
    obtain ⟨h1, h2⟩ := ih
    rw [Sprite.updateN]
    rcases Sprite.update_cases (Sprite.updateN k (mkSprite o)) with
      ⟨_, _, hu⟩ | ⟨_, _, hu⟩ | ⟨hcond, _⟩
    · rw [hu]; exact ⟨rfl, by dsimp only; omega⟩
    · rw [hu]; exact ⟨rfl, by dsimp only; omega⟩
    · exact absurd (by rw [h1, hcfg k]; omega) hcond

/-- C2: a frame transition happens in an `update()` call exactly when the
incremented `tickCount` exceeds `ticksPerFrame`; from a freshly constructed
sprite, `ticksPerFrame` calls produce no transition, `ticksPerFrame + 1`
calls produce exactly one, and with `ticksPerFrame = 0` every call
transitions. -/
theorem update_transition_counts (o : SpriteOptions) (t k : ℕ) (s : SpriteState)
    (hT : o.ticksPerFrame = (t : ℤ)) :
    ((Sprite.update s).totalFrames = s.totalFrames + 1 ↔
      s.tickCount + 1 > s.ticksPerFrame) ∧
    (Sprite.updateN t (mkSprite o)).totalFrames = 0 ∧
    (Sprite.updateN (t + 1) (mkSprite o)).totalFrames = 1 ∧
    (t = 0 → (Sprite.updateN k (mkSprite o)).totalFrames = (k : ℤ)) := by
  refine ⟨?_, ?_, ?_, ?_⟩
  · rcases Sprite.update_cases s with ⟨hc, _, hu⟩ | ⟨hc, _, hu⟩ | ⟨hc, hu⟩ <;>
      rw [hu] <;> dsimp only
    · exact iff_of_true rfl hc
    · exact iff_of_true rfl hc
    · exact iff_of_false (by omega) hc
  · rw [updateN_tick_phase o t t hT le_rfl]
    rfl
  · rw [Sprite.updateN, updateN_tick_phase o t t hT le_rfl]
    rcases Sprite.update_cases
        ({ mkSprite o with tickCount := (t : ℤ), totalTicks := (t : ℤ) }) with
      ⟨_, _, hu⟩ | ⟨_, _, hu⟩ | ⟨hcond, _⟩
    · rw [hu]
      rfl
    · rw [hu]
      rfl
    · refine absurd ?_ hcond
      show (t : ℤ) + 1 > o.ticksPerFrame
      omega
  · intro ht0
    subst ht0
    exact (updateN_every_tick o (by simpa using hT) k).2

/-- Witness for C2 with `ticksPerFrame = 0` and three updates. -/
theorem update_transition_counts_witness :
    ((Sprite.update (mkSprite fastOptions)).totalFrames =
        (mkSprite fastOptions).totalFrames + 1 ↔
      (mkSprite fastOptions).tickCount + 1 > (mkSprite fastOptions).ticksPerFrame) ∧
    (Sprite.updateN 0 (mkSprite fastOptions)).totalFrames = 0 ∧
    (Sprite.updateN 1 (mkSprite fastOptions)).totalFrames = 1 ∧
    (Sprite.updateN 3 (mkSprite fastOptions)).totalFrames = 3 :=
  ⟨(update_transition_counts fastOptions 0 3 (mkSprite fastOptions) rfl).1,
   (update_transition_counts fastOptions 0 3 (mkSprite fastOptions) rfl).2.1,
   (update_transition_counts fastOptions 0 3 (mkSprite fastOptions) rfl).2.2.1,
   (update_transition_counts fastOptions 0 3 (mkSprite fastOptions) rfl).2.2.2 rfl⟩

/-- C6: after any number of `update()` calls from a freshly constructed
sprite with at least one frame, the frame counter decomposes as
`totalFrames = numberOfFrames * totalLoops + frameIndex`. -/
theorem totalFrames_decomposition (o : SpriteOptions) (k : ℕ)
    (hn : 1 ≤ o.numberOfFrames) (ht : 0 ≤ o.ticksPerFrame) :
    (Sprite.updateN k (mkSprite o)).totalFrames =
      o.numberOfFrames * (Sprite.updateN k (mkSprite o)).totalLoops +
        (Sprite.updateN k (mkSprite o)).frameIndex := by
  obtain ⟨⟨_, _, h2⟩, hcfgN, _⟩ := SpriteInv_updateN o hn k
  rw [h2, hcfgN]

/-- Witness for C6 at the concrete scenario after 23 updates. -/
theorem totalFrames_decomposition_witness :
    (Sprite.updateN 23 (mkSprite demoOptions)).totalFrames =
      demoOptions.numberOfFrames * (Sprite.updateN 23 (mkSprite demoOptions)).totalLoops +
        (Sprite.updateN 23 (mkSprite demoOptions)).frameIndex :=
  totalFrames_decomposition demoOptions 23 (by decide) (by decide)

/-- C3: on the concrete scenario (`ticksPerFrame = 4`, `numberOfFrames = 8`,
sheet `1472 × 325`, render `147 × 325`): `frameIndex = 0` initially with
source rectangle `(0, 0, 184, 325)`; after 5 updates
`frameIndex = 1`, `tickCount = 0`, `totalTicks = 5`, `totalFrames = 1`;
after 40 updates `frameIndex = 0` and `totalLoops = 1`. -/
theorem concrete_scenario :
    (mkSprite demoOptions).frameIndex = 0 ∧
    (Sprite.render (mkSprite demoOptions)).2 =
      [CanvasOp.clearRect 0 0 147 325,
       CanvasOp.drawImage 0 0 184 325 0 0 147 325] ∧
    (Sprite.updateN 5 (mkSprite demoOptions)).frameIndex = 1 ∧
    (Sprite.updateN 5 (mkSprite demoOptions)).tickCount = 0 ∧
    (Sprite.updateN 5 (mkSprite demoOptions)).totalTicks = 5 ∧
    (Sprite.updateN 5 (mkSprite demoOptions)).totalFrames = 1 ∧
    (Sprite.updateN 40 (mkSprite demoOptions)).frameIndex = 0 ∧
    (Sprite.updateN 40 (mkSprite demoOptions)).totalLoops = 1 := by
  refine ⟨by decide, ?_, by decide, by decide, by decide, by decide, by decide, by decide⟩
  simp [Sprite.render, mkSprite, demoOptions]
  norm_num

/-- C4: for every sprite state, `render()` clears the destination region
and blits with source rectangle
`(frameIndex * frameWidth, 0, frameWidth, sheetHeight)`, where
`frameWidth = sheetWidth / numberOfFrames`, onto the destination rectangle
`(0, 0, renderWidth, renderHeight)`. -/
theorem render_rectangles (s : SpriteState) :
    (Sprite.render s).2 =
      [CanvasOp.clearRect 0 0 (s.renderWidth : ℚ) (s.renderHeight : ℚ),
       CanvasOp.drawImage ((s.frameIndex : ℚ) * Sprite.frameWidth s) 0
         (Sprite.frameWidth s) (s.height : ℚ) 0 0
         (s.renderWidth : ℚ) (s.renderHeight : ℚ)] := rfl

/-- C7: `render()` is a pure read of the sprite state — for every state,
including a freshly constructed sprite that has never been updated, the
state after `render()` (all counters and all configuration fields) is the
state before; only drawing-surface operations are emitted. -/
theorem render_no_state_mutation (s : SpriteState) :
    (Sprite.render s).1 = s := rfl

/-- C8 counterexample: constructing with `numberOfFrames = 0` and
`ticksPerFrame = -1` is not rejected.  The fail-fast construction of the
error-handling contract returns an error on these options, but the source
constructor disagrees: it returns a sprite storing the invalid options
verbatim. -/
theorem construct_invalid_not_rejected :
    mkSpriteChecked invalidOptions = Except.error "invalid sprite configuration" ∧
    Except.ok (mkSprite invalidOptions) ≠ mkSpriteChecked invalidOptions ∧
    (mkSprite invalidOptions).numberOfFrames = 0 ∧
    (mkSprite invalidOptions).ticksPerFrame = -1 := by
  have h1 : mkSpriteChecked invalidOptions =
      Except.error "invalid sprite configuration" := by
    rw [mkSpriteChecked, if_pos (Or.inl (by decide))]
  exact ⟨h1, by rw [h1]; exact fun h => Except.noConfusion h, rfl, rfl⟩

/-- C8 amended: the constructor performs no validation at all — for every
options record, valid or not, it produces a sprite that stores the options
verbatim with every counter zeroed. -/
theorem construct_stores_options (o : SpriteOptions) :
    mkSprite o =
      { width := o.width, renderWidth := o.renderWidth, height := o.height,
        renderHeight := o.renderHeight, totalTicks := 0, totalFrames := 0,
        totalLoops := 0, frameIndex := 0, tickCount := 0,
        ticksPerFrame := o.ticksPerFrame, numberOfFrames := o.numberOfFrames } := rfl

/-- C9 counterexample: the division by `numberOfFrames` in `render()` is not
guarded.  A sprite with `numberOfFrames = 0` is constructible (the
constructor does not validate), the guarded variant returns an explicit
error on it, but the source `render()` disagrees: it performs the division
`width / 0` and issues the clear and draw calls normally. -/
theorem render_div_by_zero_unguarded :
    (mkSprite invalidOptions).numberOfFrames = 0 ∧
    renderGuarded (mkSprite invalidOptions) =
      Except.error "division by zero: numberOfFrames = 0" ∧
    Except.ok (Sprite.render (mkSprite invalidOptions)) ≠
      renderGuarded (mkSprite invalidOptions) ∧
    (Sprite.render (mkSprite invalidOptions)).2 =
      [CanvasOp.clearRect 0 0 147 325,
       CanvasOp.drawImage (0 * ((1472 : ℚ) / 0)) 0 ((1472 : ℚ) / 0) 325 0 0 147 325] := by
  have h1 : renderGuarded (mkSprite invalidOptions) =
      Except.error "division by zero: numberOfFrames = 0" := by
    rw [renderGuarded, if_pos (by decide)]
  refine ⟨rfl, h1, by rw [h1]; exact fun h => Except.noConfusion h, ?_⟩
  simp [Sprite.render, mkSprite, invalidOptions]

/-- C9 amended: for every state with `numberOfFrames = 0`, `render()` still
performs the division of the sheet width by zero and issues the clear and
draw calls with the resulting frame width; no guard and no error path
exists. -/
theorem render_unguarded (s : SpriteState) (h : s.numberOfFrames = 0) :
    Sprite.render s =
      (s, [CanvasOp.clearRect 0 0 (s.renderWidth : ℚ) (s.renderHeight : ℚ),
           CanvasOp.drawImage ((s.frameIndex : ℚ) * ((s.width : ℚ) / 0)) 0
             ((s.width : ℚ) / 0) (s.height : ℚ) 0 0
             (s.renderWidth : ℚ) (s.renderHeight : ℚ)]) := by
  simp [Sprite.render, h]

/-- Witness for C9's amended statement at the invalid configuration. -/
theorem render_unguarded_witness :
    Sprite.render (mkSprite invalidOptions) =
      (mkSprite invalidOptions,
       [CanvasOp.clearRect 0 0 ((mkSprite invalidOptions).renderWidth : ℚ)
          ((mkSprite invalidOptions).renderHeight : ℚ),
        CanvasOp.drawImage
          (((mkSprite invalidOptions).frameIndex : ℚ) *
            (((mkSprite invalidOptions).width : ℚ) / 0)) 0
          (((mkSprite invalidOptions).width : ℚ) / 0)
          ((mkSprite invalidOptions).height : ℚ) 0 0
          ((mkSprite invalidOptions).renderWidth : ℚ)
          ((mkSprite invalidOptions).renderHeight : ℚ)]) :=
  render_unguarded (mkSprite invalidOptions) (by decide)

/-- C10: after `pause()` sets `playing := false`, every subsequent firing of
the continuous tick callback still re-requests itself (the loop keeps
running) but calls neither `Sprite.update()` nor `Sprite.render()`: the
sprite state — all animation counters — stays unchanged for as long as no
`play()` intervenes, and no drawing-surface operation is performed. -/
theorem paused_ticks_idle (a : AnimatorState) (k : ℕ) :
    Animator.tickN k (Animator.pause a) = Animator.pause a ∧
    (Animator.tick (Animator.tickN k (Animator.pause a))).2.1 = true ∧
    (Animator.tick (Animator.tickN k (Animator.pause a))).2.2 = [] ∧
    (Animator.tickN k (Animator.pause a)).sprite = a.sprite := by
  have hstep : Animator.tick (Animator.pause a) = (Animator.pause a, true, []) := by
    simp [Animator.tick, Animator.pause]
  have hN : ∀ m : ℕ, Animator.tickN m (Animator.pause a) = Animator.pause a := by
    intro m
    induction m with
    | zero => rfl
    | succ m ih => rw [Animator.tickN, ih, hstep]
  refine ⟨hN k, ?_, ?_, ?_⟩
  · rw [hN k, hstep]
  · rw [hN k, hstep]
  · rw [hN k]
    rfl
